import Mathlib

/-!
Verification development for the Elixxir gateway (client-facing edge of a
cMix mixnet).  The definitions below are a shallow embedding of the Go
source: bytes are `List Nat` (each entry a byte value), Go `int64`
nanosecond timestamps are `Int`, fallible calls return `Option`/`Except`,
and calls into external libraries (cMix crypto, the wire format library,
the ephemeral-id derivation) are passed in as explicit function arguments,
so that theorems quantify over every possible behaviour of those
collaborators.
-/

namespace Gateway

/-- Byte strings are lists of byte values. -/
abbrev Bytes := List Nat

/-! ## Constants from `cmd/gateway.go` -/

/-- `format.IdentityFPLen` from the format library: the identity
fingerprint is 200 bits = 25 bytes. -/
def identityFPLen : Nat := 25

/-- `var dummyIdFp = make([]byte, format.IdentityFPLen)`: the zeroed
identity fingerprint that identifies dummy messages. -/
def dummyIdFp : Bytes := List.replicate identityFPLen 0

/-- `const RequestKeyThresholdMax = 3 * time.Minute`, in nanoseconds. -/
def requestKeyThresholdMax : Int := 3 * 60 * 1000000000

/-- `const RequestKeyThresholdMix = -3 * time.Minute`, in nanoseconds. -/
def requestKeyThresholdMix : Int := -3 * 60 * 1000000000

/-! ## `RequestClientKey` timestamp validation (`cmd/gateway.go` 81-87)

The Go code computes `requestTime := time.Unix(0, request.RequestTimestamp)`
and rejects when

  `time.Since(requestTime) > RequestKeyThresholdMax ||
   time.Until(requestTime) < RequestKeyThresholdMix`

with `time.Since(t) = now - t` and `time.Until(t) = t - now`, all in
nanoseconds. -/

/-- The boolean rejection condition for the request timestamp, exactly as
written in the source.  `nowNs` is the current wall clock and `tsNs` is
`request.RequestTimestamp`, both in nanoseconds. -/
def requestTimestampInvalid (nowNs tsNs : Int) : Bool :=
  decide (nowNs - tsNs > requestKeyThresholdMax) ||
    decide (tsNs - nowNs < requestKeyThresholdMix)

/-- The two disjuncts of the source condition are the same test: the check
fires exactly when the timestamp is more than three minutes in the past,
never when it is in the future. -/
theorem requestTimestampInvalid_iff_past (nowNs tsNs : Int) :
    requestTimestampInvalid nowNs tsNs = decide (nowNs - tsNs > requestKeyThresholdMax) := by
  unfold requestTimestampInvalid requestKeyThresholdMax requestKeyThresholdMix
  by_cases h : nowNs - tsNs > 3 * 60 * 1000000000
  · have h2 : tsNs - nowNs < -3 * 60 * 1000000000 := by omega
    simp only [decide_eq_true h, decide_eq_true h2, Bool.or_self]
  · have h2 : ¬ tsNs - nowNs < -3 * 60 * 1000000000 := by omega
    simp only [decide_eq_false h, decide_eq_false h2, Bool.or_self]

/-! ## Bloom filter OR-merge helper (`storage.Or`)

Go `[]byte` slices may be `nil`; that is modelled with `Option Bytes`
(`none` = `nil`).  The Go function mutates and returns `l1`; the embedding
returns the resulting value. -/

/-- `func Or(l1, l2 []byte) []byte` from the storage layer:
if `l1 == nil` return `l2`; else if `l2 == nil` return `l1`; else if the
lengths differ, log and return `l1`; else return the element-wise bitwise
OR written into `l1`. -/
def bloomOr (l1 l2 : Option Bytes) : Option Bytes :=
  match l1, l2 with
  | none, _ => l2
  | some a, none => some a
  | some a, some b =>
    if a.length ≠ b.length then some a
    else some (List.zipWith Nat.lor a b)

/-! ## Round map (`MapImpl` round storage)

Modelled from the spec: the bodies of `MapImpl.UpsertRound` and
`MapImpl.GetRound` are not among the provided sources (only their unit
tests are).  Spec section 4.B: `UpsertRound(r)` — if `r.Id` absent,
insert; else replace only if `r.UpdateId > stored.UpdateId`; otherwise
silently keep existing; never fails on a stale update.  `GetRound(id)`
returns the stored round.  The map `rounds : map[id.Round]*Round` is an
association list keyed by round id. -/

/-- The persisted `Round` row: `Id`, `UpdateId` and the signed info blob. -/
structure Round where
  id : Nat
  updateId : Nat
  infoBlob : Bytes
  deriving DecidableEq, Repr

/-- The in-memory round table, keyed by round id. -/
abbrev RoundMap := List (Nat × Round)

/-- Look up the round stored under `rid`. -/
def findRound (m : RoundMap) (rid : Nat) : Option Round :=
  (m.find? (fun p => p.1 = rid)).map Prod.snd

/-- Replace the entry under key `rid` with `r` (first occurrence). -/
def replaceRound (m : RoundMap) (rid : Nat) (r : Round) : RoundMap :=
  m.map (fun p => if p.1 = rid then (rid, r) else p)

/-- Modelled from the spec: `MapImpl.UpsertRound`.  Inserts when the id is
absent, replaces only when the incoming `UpdateId` is strictly greater,
and never returns an error. -/
def upsertRound (m : RoundMap) (r : Round) : RoundMap × Option String :=
  match findRound m r.id with
  | none => ((r.id, r) :: m, none)
  | some stored =>
    if r.updateId > stored.updateId then (replaceRound m r.id r, none)
    else (m, none)

/-- Modelled from the spec: `MapImpl.GetRound` returns the stored round,
or an error when the id is absent. -/
def getRound (m : RoundMap) (rid : Nat) : Except String Round :=
  match findRound m rid with
  | some r => .ok r
  | none => .error "Unable to locate round"

/-! ## `RequestClientKey`: handling of the node response (`cmd/gateway.go` 97-168)

After `SendRequestClientKeyMessage` succeeds, the gateway signs the
response blob, validates several parses, derives the user id, persists
`{Id = userId, Key = resp.ClientGatewayKey}` via `UpsertClient`, clears
`resp.ClientGatewayKey`, and returns `resp` with a nil error even when
`UpsertClient` fails.  The external fallible steps (RSA signing, the three
protobuf/pem parses, `xx.NewID`, the store call) are passed in as explicit
results, covering every behaviour of those collaborators.  Unset protobuf
byte fields are empty (`[]`). -/

/-- The `pb.SignedKeyResponse` fields used by the handler. -/
structure SignedKeyResponse where
  keyResponse : Bytes
  clientGatewayKey : Bytes
  keyResponseSignedByGateway : Option Bytes
  error : String
  deriving DecidableEq, Repr

/-- The persisted `storage.Client` row: `(Id, Key)`. -/
structure Client where
  id : Bytes
  key : Bytes
  deriving DecidableEq, Repr

/-- The observable outcome of the node-response handling: the reply
returned to the caller, the returned error, and the sequence of
`UpsertClient` calls issued to the store. -/
structure KeyResponseResult where
  reply : SignedKeyResponse
  err : Option String
  upsertCalls : List Client
  deriving DecidableEq, Repr

/-- A freshly constructed `&pb.SignedKeyResponse{Error: e}`: all byte
fields empty. -/
def errorResponse (e : String) : SignedKeyResponse :=
  ⟨[], [], none, e⟩

/-- `RequestClientKey` from the point where the node response `resp` has
been received (`cmd/gateway.go` 97-168).  `signResult` is the outcome of
`rsa.Sign` over the hashed `resp.KeyResponse`; `keyRespParse` the error of
unmarshalling `resp.KeyResponse` into a `pb.ClientKeyResponse` (its value
is unused afterwards); `confirmationParse` yields the confirmation's
`RSAPubKey` pem; `loadPublicKey` the error of decoding that pem;
`newUserID` the result of `xx.NewID(pubkey, salt, User)`; and
`upsertClientErr` the error of `gw.storage.UpsertClient`. -/
def requestClientKeyNodeResponse (resp : SignedKeyResponse)
    (signResult : Except String Bytes)
    (keyRespParse : Option String)
    (confirmationParse : Except String Bytes)
    (loadPublicKey : Bytes → Option String)
    (newUserID : Except String Bytes)
    (upsertClientErr : Option String) : KeyResponseResult :=
  match signResult with
  | .error e =>
    let m := "Could not sign key response: " ++ e
    ⟨errorResponse m, some m, []⟩
  | .ok sig =>
    let resp1 := { resp with keyResponseSignedByGateway := some sig }
    match keyRespParse with
    | some e =>
      let m := "Failed to unmarshal response from node: " ++ e
      ⟨errorResponse m, some m, []⟩
    | none =>
      match confirmationParse with
      | .error e =>
        let m := "Could not parse client registration confirmation: " ++ e
        ⟨errorResponse m, some m, []⟩
      | .ok pem =>
        match loadPublicKey pem with
        | some e =>
          let m := "Unable to decode client RSA Pub Key: " ++ e
          ⟨errorResponse m, some m, []⟩
        | none =>
          match newUserID with
          | .error e =>
            let m := "Failed to generate new ID: " ++ e
            ⟨errorResponse m, some m, []⟩
          | .ok userId =>
            let newClient : Client := ⟨userId, resp1.clientGatewayKey⟩
            let resp2 := { resp1 with clientGatewayKey := [] }
            match upsertClientErr with
            | some _ => ⟨resp2, none, [newClient]⟩
            | none => ⟨resp2, none, [newClient]⟩

/-! ## Completed-batch processing (`cmd/gateway.go` 703-767)

`processMessages` reconstructs each slot as a formatted message, skips
dummies (identity fingerprint equal to `dummyIdFp`) and slots whose
ephemeral recipient bytes fail to marshal, clears the recipient id with
the round's address-space size, adds non-zero cleared ids to the
recipients map, and appends a `MixedMessage` (and a notification entry)
for every non-dummy slot.  The format-library parsing of the two payloads
is composed into the slot model: a slot carries the identity fingerprint
and the `ephemeral.Marshal` result read from its payloads.  The clearing
operation `ephemeral.Id.Clear` lives in an external library and is passed
in as the function `clear`. -/

/-- A slot of the completed batch, with the fields the loop reads off the
reconstructed format message: `GetIdentityFP()`, the result of
`ephemeral.Marshal(GetEphemeralRID())` (`none` when marshalling fails),
and the two raw payloads. -/
structure PbMsg where
  identityFP : Bytes
  ephRID : Option Int
  payloadA : Bytes
  payloadB : Bytes
  deriving DecidableEq, Repr

/-- `storage.NewMixedMessage(roundId, recipientId, payloadA, payloadB)`
as the loop constructs it. -/
structure MixedMessage where
  roundId : Nat
  recipientId : Int
  payloadA : Bytes
  payloadB : Bytes
  deriving DecidableEq, Repr

/-- The triple accumulated by `processMessages`: the recipients map keys
(modelled as a duplicate-free list, insertion keeps membership equal to
the Go map), the `ClientRound` message list in FIFO order, and the
notification entries `(EphemeralID, IdentityFP)` (the external message
hash is not modelled). -/
structure ProcessResult where
  recipients : List Int
  messages : List MixedMessage
  notifications : List (Int × Bytes)
  deriving DecidableEq, Repr

/-- Insertion into the recipients map: `recipients[recipientId] = nil`. -/
def insertRecipient (x : Int) (l : List Int) : List Int :=
  if x ∈ l then l else x :: l

/-- The loop of `processMessages`.  `clear v size` is
`ephemeral.Id.Clear` applied to the marshalled id `v` and
`round.AddressSpaceSize`; the Go loop tests `recipientId.Int64() != 0`
before adding to the recipients map, but appends the mixed message and
the notification unconditionally for every non-dummy slot. -/
def processMessages (clear : Int → Nat → Int) (addressSpaceSize roundID : Nat) :
    List PbMsg → ProcessResult
  | [] => ⟨[], [], []⟩
  | msg :: rest =>
    let r := processMessages clear addressSpaceSize roundID rest
    if msg.identityFP = dummyIdFp then r
    else
      match msg.ephRID with
      | none => r
      | some v =>
        let recipientId := clear v addressSpaceSize
        { recipients :=
            if recipientId ≠ 0 then insertRecipient recipientId r.recipients
            else r.recipients
          messages := ⟨roundID, recipientId, msg.payloadA, msg.payloadB⟩ :: r.messages
          notifications := (recipientId, msg.identityFP) :: r.notifications }

/-- The mixed message contributed by one slot: `none` for dummies and for
slots whose ephemeral id fails to marshal, otherwise the stored row with
the cleared recipient id (zero or not). -/
def slotToMixed (clear : Int → Nat → Int) (addressSpaceSize roundID : Nat)
    (msg : PbMsg) : Option MixedMessage :=
  if msg.identityFP = dummyIdFp then none
  else msg.ephRID.map (fun v => ⟨roundID, clear v addressSpaceSize, msg.payloadA, msg.payloadB⟩)

/-- A concrete instance of the external clearing operation for evaluating
the loop: keep the low `size` bits of the id. -/
def clearLowBits (v : Int) (size : Nat) : Int :=
  v % ((2 : Int) ^ size)

/-! ## Junk message generation (`cmd/gateway.go` 494-541)

`GenJunkMsg(grp, numNodes, msgNum, roundID)` builds a formatted message
whose two payloads are `grp.GetP().ByteLen()` zero bytes with the four
little-endian bytes of `msgNum+1` written at offset 1, whose ephemeral id
is `ephemeral.GetId(&id.DummyUser, 64, time.Now().UnixNano())`, and whose
identity fingerprint is `dummyIdFp`; it encrypts the message with
`cmix.ClientEncrypt` over `numNodes` copies of the base key derived from
the dummy user, with salt `0x01` followed by 31 zero bytes, and returns
the slot.  The current wall clock consumed by the source's
`time.Now().UnixNano()` is the explicit argument `now`; the external
library functions (`ephemeral.GetId`, `cmix.ClientEncrypt`,
`cmix.GenerateKMACs`) and the external constants (the dummy user's bytes,
the base key) are fields of a `JunkEnv`. -/

/-- A `format.Message` at the contract level of the format library: the
two payload regions plus the ephemeral recipient id and identity
fingerprint fields written by the setters. -/
structure FormatMessage where
  payloadA : Bytes
  payloadB : Bytes
  ephemeralRID : Bytes
  identityFP : Bytes
  deriving DecidableEq, Repr

/-- The `pb.Slot` fields populated by `GenJunkMsg` (the MAC field stays
at its protobuf default). -/
structure Slot where
  senderID : Bytes
  payloadA : Bytes
  payloadB : Bytes
  salt : Bytes
  kmacs : List Bytes
  mac : Bytes
  deriving DecidableEq, Repr

/-- The external collaborators of `GenJunkMsg`. -/
structure JunkEnv where
  /-- `grp.NewIntFromBytes(id.DummyUser[:])`, the base key replicated per
  node. -/
  baseKey : Bytes
  /-- `ephemeral.GetId(user, bits, timestamp)` (its error path panics in
  the source, so the embedding keeps it total). -/
  ephGetId : Bytes → Nat → Int → Bytes
  /-- `cmix.ClientEncrypt(grp, msg, salt, baseKeys, roundID)`; the group
  is fixed by the environment. -/
  clientEncrypt : FormatMessage → Bytes → List Bytes → Nat → FormatMessage
  /-- `cmix.GenerateKMACs(salt, baseKeys, roundID, hash)`. -/
  genKMACs : Bytes → List Bytes → Nat → List Bytes

/-- Stand-in for the external constant `id.DummyUser` (33 bytes).  Its
exact bytes live outside the provided sources; no claim depends on them,
only on the constant being fixed. -/
def dummyUserBytes : Bytes := List.replicate 33 0

/-- `binary.LittleEndian.PutUint32`: the four little-endian bytes of a
32-bit value. -/
def le32 (n : Nat) : Bytes :=
  [n % 256, n / 256 % 256, n / 65536 % 256, n / 16777216 % 256]

/-- Write the bytes `bs` into `l` starting at offset `off` (the Go loop
`payloadBytes[i+1] = bs[i]`; an out-of-range index would panic in Go and
is dropped by `List.set`, which cannot happen for the group sizes used). -/
def writeBytes (l : Bytes) (off : Nat) (bs : Bytes) : Bytes :=
  match bs with
  | [] => l
  | b :: rest => writeBytes (l.set off b) (off + 1) rest

/-- The junk payload: `grp.GetP().ByteLen()` zero bytes with the four
little-endian bytes of `msgNum+1` (a `uint32` sum) written starting at
offset 1. -/
def junkPayload (primeByteLen msgNum : Nat) : Bytes :=
  writeBytes (List.replicate primeByteLen 0) 1 (le32 ((msgNum + 1) % 4294967296))

/-- `salt := make([]byte, 32); salt[0] = 0x01`. -/
def junkSalt : Bytes := 1 :: List.replicate 31 0

/-- The formatted (pre-encryption) junk message: both payloads carry the
junk payload, the ephemeral id is derived from the dummy user with 64
bits and the current time, the identity fingerprint is `dummyIdFp`. -/
def junkFormatMessage (env : JunkEnv) (primeByteLen msgNum : Nat) (now : Int) :
    FormatMessage :=
  { payloadA := junkPayload primeByteLen msgNum
    payloadB := junkPayload primeByteLen msgNum
    ephemeralRID := env.ephGetId dummyUserBytes 64 now
    identityFP := dummyIdFp }

/-- `GenJunkMsg`: encrypt the junk format message and assemble the slot. -/
def genJunkMsg (env : JunkEnv) (primeByteLen numNodes msgNum roundID : Nat)
    (now : Int) : Slot :=
  let baseKeys := List.replicate numNodes env.baseKey
  let msg := junkFormatMessage env primeByteLen msgNum now
  let ecrMsg := env.clientEncrypt msg junkSalt baseKeys roundID
  { senderID := dummyUserBytes
    payloadA := ecrMsg.payloadA
    payloadB := ecrMsg.payloadB
    salt := junkSalt
    kmacs := env.genKMACs junkSalt baseKeys roundID
    mac := [] }

/-- A possible behaviour of the external collaborators in which the
ephemeral-id derivation varies with its timestamp argument (as the real
rotation-salted derivation does across rotation windows) and the client
encryption mixes the ephemeral id into the ciphertext (as real encryption
of the serialized message does). -/
def timeSensitiveJunkEnv : JunkEnv :=
  { baseKey := [7]
    ephGetId := fun _ _ t => [t.toNat % 256]
    clientEncrypt := fun m _ _ _ => { m with payloadA := m.payloadA ++ m.ephemeralRID }
    genKMACs := fun _ _ _ => [] }

/-- A time-independent behaviour of the external collaborators, used for
concrete evaluations. -/
def sampleJunkEnv : JunkEnv :=
  { baseKey := [7]
    ephGetId := fun _ _ _ => [3]
    clientEncrypt := fun m _ _ _ => m
    genKMACs := fun _ _ _ => [[9]] }

/-- A concrete client slot, used for concrete evaluations. -/
def sampleSlot : Slot :=
  ⟨[1], [2], [3], [4], [], []⟩

/-! ## `UploadUnmixedBatch` (`cmd/gateway.go` 545-601)

If `roundInfo.BatchSize` is zero, log and return.  `PopRound(rid)`; if
nil, log and return.  Otherwise pad the popped slots with junk messages
for `msgNum = len(slots) .. batchSize-1` and upload.  The embedding
returns the uploaded batch, `none` when nothing is uploaded. -/

/-- The batch shipped by `UploadUnmixedBatch`, or `none` when the
function returns without uploading. -/
def uploadUnmixedBatch (env : JunkEnv) (primeByteLen numNodes : Nat)
    (batchSize rid : Nat) (now : Int) (popped : Option (List Slot)) :
    Option (List Slot) :=
  if batchSize = 0 then none
  else
    match popped with
    | none => none
    | some slots =>
      some (slots ++ (List.range' slots.length (batchSize - slots.length)).map
        (fun i => genJunkMsg env primeByteLen numNodes i rid now))

/-! ## `Storage.GetMixedMessages` (storage layer)

The wrapper consults `countMixedMessagesByRound` first;
`isValidGateway = count > 0`; on a count error or a zero count it returns
immediately with a nil message list, and only otherwise consults the
per-recipient index `getMixedMessages`.  The two database methods are
passed in as functions; Go returns `(count, err)` pairs, kept as pairs. -/

/-- The result triple of `Storage.GetMixedMessages`: the messages, the
`isValidGateway` boolean (`hasRound`), and the error. -/
structure GetMixedResult where
  msgs : List MixedMessage
  isValidGateway : Bool
  err : Option String
  deriving DecidableEq, Repr

/-- `Storage.GetMixedMessages(recipientId, roundId)`. -/
def getMixedMessagesStorage
    (countMixedMessagesByRound : Nat → Nat × Option String)
    (getByRecipient : Bytes → Nat → List MixedMessage × Option String)
    (recipientId : Bytes) (roundId : Nat) : GetMixedResult :=
  let c := countMixedMessagesByRound roundId
  let isValidGateway := decide (c.1 > 0)
  if c.2.isSome || !isValidGateway then ⟨[], isValidGateway, c.2⟩
  else
    let g := getByRecipient recipientId roundId
    ⟨g.1, isValidGateway, g.2⟩

/-! ## `PutMessage` / `PutManyMessages` admission (`cmd/gateway.go` 279-470)

After the proxy check, `PutMessage` runs `processPutMessage` (client
lookup and MAC verification), unmarshals the sender id, evaluates
`isWhitelistedIpAddr := messageRateLimiting.LookupBucket(ipAddr).IsWhitelisted()`
and `idBucketSuccess := messageRateLimiting.LookupBucket(senderId).Add(1)`
(the `Add` side effect on the bucket is not modelled), rejects when both
are false, and otherwise appends to the `UnmixedBuffer`.
`PutManyMessages` unmarshals the sender of the first slot, runs
`processPutMessage` over every slot returning the first failure, and then
applies the same rate-limit check and a bulk buffer append. -/

/-- The control-flow outcome of a put request handled locally. -/
inductive PutOutcome where
  /-- `processPutMessage` failed: the response has `Accepted = false`. -/
  | procRejected (err : String)
  /-- The sender id did not unmarshal: nil response with an error. -/
  | senderIdError
  /-- Rejected by rate limiting: nil response with a too-many-messages
  error. -/
  | rateLimited
  /-- The buffer append failed: `Accepted = false` with an error. -/
  | bufferRejected (err : String)
  /-- Accepted: `{Accepted: true, RoundID: roundID}`. -/
  | accepted (roundID : Nat)
  deriving DecidableEq, Repr

/-- `generateClientMac(cl, msg)`: hash the client key then the salt, then
hash that digest followed by the slot digest.  Writing twice into the
cMix hash is hashing the concatenation; the hash itself is external and
passed in. -/
def generateClientMac (cmixHash : Bytes → Bytes) (clientKey salt slotDigest : Bytes) :
    Bytes :=
  cmixHash (cmixHash (clientKey ++ salt) ++ slotDigest)

/-- `processPutMessage(message)`: unmarshal the sender id, look the
client up in the store, compare the generated MAC with the message MAC.
Returns the error surfaced to the caller, `none` on success. -/
def processPutMessage (senderIdParse : Option Bytes)
    (getClient : Bytes → Option Client) (cmixHash : Bytes → Bytes)
    (salt slotDigest mac : Bytes) : Option String :=
  match senderIdParse with
  | none => some "Could not parse message: Unrecognized ID"
  | some clientID =>
    match getClient clientID with
    | none => some "Did not recognize ID. Have you registered successfully?"
    | some cl =>
      if generateClientMac cmixHash cl.key salt slotDigest ≠ mac then
        some "Could not authenticate client. Is the client registered with this node?"
      else none

/-- The local path of `PutMessage`: `procResult` is the
`processPutMessage` outcome, `senderIdOk` whether the sender id
unmarshals, `isWhitelistedIpAddr` and `idBucketAdd` the two rate-limit
probes, `bufferAddErr` the `AddUnmixedMessage` outcome. -/
def putMessage (procResult : Option String) (senderIdOk : Bool)
    (isWhitelistedIpAddr idBucketAdd : Bool) (bufferAddErr : Option String)
    (roundID : Nat) : PutOutcome :=
  match procResult with
  | some e => .procRejected e
  | none =>
    if !senderIdOk then .senderIdError
    else if !isWhitelistedIpAddr && !idBucketAdd then .rateLimited
    else
      match bufferAddErr with
      | some e => .bufferRejected e
      | none => .accepted roundID

/-- The local path of `PutManyMessages`: the sender of the first slot is
unmarshalled first, then every slot runs `processPutMessage` (the first
failure is returned), then the rate-limit check, then the bulk append. -/
def putManyMessages (senderIdOk : Bool) (procResults : List (Option String))
    (isWhitelistedIpAddr idBucketAdd : Bool) (bufferAddManyErr : Option String)
    (roundID : Nat) : PutOutcome :=
  if !senderIdOk then .senderIdError
  else
    match procResults.findSome? id with
    | some e => .procRejected e
    | none =>
      if !isWhitelistedIpAddr && !idBucketAdd then .rateLimited
      else
        match bufferAddManyErr with
        | some e => .bufferRejected e
        | none => .accepted roundID

end Gateway

/-! ## Claim theorems (first group) -/

/-- C1: the claim says a request whose timestamp differs from `now` by
more than 3 minutes in either direction is rejected.  The code evaluated
at `now = 0`, `RequestTimestamp = 600e9` ns (ten minutes in the future)
does NOT reject, although the absolute difference exceeds the 3-minute
threshold: the second disjunct of the source repeats the first instead of
bounding the future direction. -/
theorem c1_requestTimestamp_future_accepted :
    Gateway.requestTimestampInvalid 0 600000000000 = false ∧
      (600000000000 : Int) - 0 > Gateway.requestKeyThresholdMax := by
  constructor
  · rfl
  · decide

/-- C5: upserting a round whose `UpdateId` is less than or equal to the
stored one leaves the map unchanged, returns no error, and a subsequent
`GetRound` still returns the previously stored round. -/
theorem c5_upsertRound_stale_noop (m : Gateway.RoundMap) (r stored : Gateway.Round)
    (hfound : Gateway.findRound m r.id = some stored)
    (hstale : r.updateId ≤ stored.updateId) :
    Gateway.upsertRound m r = (m, none) ∧
      Gateway.getRound (Gateway.upsertRound m r).1 r.id = .ok stored := by
  have hgt : ¬ r.updateId > stored.updateId := by omega
  constructor
  · unfold Gateway.upsertRound
    rw [hfound]
    simp [hgt]
  · unfold Gateway.upsertRound
    rw [hfound]
    simp [hgt, Gateway.getRound, hfound]

/-- Witness for C5 at a concrete map: round 10 stored with `UpdateId` 50,
upsert with `UpdateId` 0 is a no-op. -/
theorem c5_upsertRound_stale_noop_witness :
    Gateway.upsertRound [(10, ⟨10, 50, [1]⟩)] ⟨10, 0, [2]⟩ = ([(10, ⟨10, 50, [1]⟩)], none) ∧
      Gateway.getRound (Gateway.upsertRound [(10, ⟨10, 50, [1]⟩)] ⟨10, 0, [2]⟩).1 10 =
        .ok ⟨10, 50, [1]⟩ := by
  have h := c5_upsertRound_stale_noop [(10, ⟨10, 50, [1]⟩)] ⟨10, 0, [2]⟩ ⟨10, 50, [1]⟩
    (by decide) (by decide)
  exact h

/-- C10: the bloom OR-merge helper returns the element-wise bitwise OR
only when both arguments are non-nil and of equal length; when exactly one
argument is nil the other is returned unchanged; and when both are non-nil
with different lengths, `l1` is returned with none of the bits of `l2`. -/
theorem c10_bloomOr_cases (a b : Gateway.Bytes) :
    (a.length = b.length →
      Gateway.bloomOr (some a) (some b) = some (List.zipWith Nat.lor a b)) ∧
    Gateway.bloomOr none (some b) = some b ∧
    Gateway.bloomOr (some a) none = some a ∧
    (a.length ≠ b.length → Gateway.bloomOr (some a) (some b) = some a) := by
  refine ⟨fun h => ?_, rfl, rfl, fun h => ?_⟩
  · simp [Gateway.bloomOr, h]
  · simp [Gateway.bloomOr, h]

/-- Witness for C10 at concrete filters: equal-length merge ORs the bytes
(`1 | 4 = 5`, `2 | 6 = 6`), and a length mismatch discards the second
filter entirely. -/
theorem c10_bloomOr_cases_witness :
    Gateway.bloomOr (some [1, 2]) (some [4, 6]) = some [5, 6] ∧
      Gateway.bloomOr (some [1, 2]) (some [4]) = some [1, 2] := by
  constructor
  · have h := (c10_bloomOr_cases [1, 2] [4, 6]).1 (by decide)
    simpa using h
  · exact (c10_bloomOr_cases [1, 2] [4]).2.2.2 (by decide)

/-- C2: for every node response and every behaviour of the fallible
collaborators, the reply returned by the node-response handling has an
empty `ClientGatewayKey`, while every client record handed to
`UpsertClient` carries the original `ClientGatewayKey` from the node
response: the key never appears on the outbound reply. -/
theorem c2_clientGatewayKey_cleared (resp : Gateway.SignedKeyResponse)
    (signResult : Except String Gateway.Bytes) (keyRespParse : Option String)
    (confirmationParse : Except String Gateway.Bytes)
    (loadPublicKey : Gateway.Bytes → Option String)
    (newUserID : Except String Gateway.Bytes) (upsertClientErr : Option String) :
    (Gateway.requestClientKeyNodeResponse resp signResult keyRespParse confirmationParse
        loadPublicKey newUserID upsertClientErr).reply.clientGatewayKey = [] ∧
      ∀ c ∈ (Gateway.requestClientKeyNodeResponse resp signResult keyRespParse
          confirmationParse loadPublicKey newUserID upsertClientErr).upsertCalls,
        c.key = resp.clientGatewayKey := by
  unfold Gateway.requestClientKeyNodeResponse
  rcases signResult with e | sig
  · simp [Gateway.errorResponse]
  rcases keyRespParse with _ | e
  rotate_left
  · simp [Gateway.errorResponse]
  rcases confirmationParse with e | pem
  · simp [Gateway.errorResponse]
  rcases h : loadPublicKey pem with _ | e
  rotate_left
  · simp [h, Gateway.errorResponse]
  rcases newUserID with e | uid
  · simp [h, Gateway.errorResponse]
  rcases upsertClientErr with _ | e <;> simp [h]

/-- Witness for C2 at a concrete response whose `ClientGatewayKey` is
`[9, 9]`, with every collaborator succeeding. -/
theorem c2_clientGatewayKey_cleared_witness :
    (Gateway.requestClientKeyNodeResponse ⟨[1], [9, 9], none, ""⟩ (.ok [2]) none (.ok [3])
        (fun _ => none) (.ok [4]) none).reply.clientGatewayKey = [] ∧
      ∀ c ∈ (Gateway.requestClientKeyNodeResponse ⟨[1], [9, 9], none, ""⟩ (.ok [2]) none
          (.ok [3]) (fun _ => none) (.ok [4]) none).upsertCalls,
        c.key = [9, 9] :=
  c2_clientGatewayKey_cleared ⟨[1], [9, 9], none, ""⟩ (.ok [2]) none (.ok [3])
    (fun _ => none) (.ok [4]) none

/-- C8: when every step up to persistence succeeds but `UpsertClient`
fails, `RequestClientKey` still returns the key-cleared response with a
nil error, having attempted to persist the original key: the store
failure is never surfaced as an RPC error. -/
theorem c8_upsertClient_failure_returns_success (resp : Gateway.SignedKeyResponse)
    (sig pem uid : Gateway.Bytes) (e : String) :
    Gateway.requestClientKeyNodeResponse resp (.ok sig) none (.ok pem)
        (fun _ => none) (.ok uid) (some e) =
      ⟨{ resp with keyResponseSignedByGateway := some sig, clientGatewayKey := [] },
        none, [⟨uid, resp.clientGatewayKey⟩]⟩ :=
  rfl

/-- Membership in the recipients map after an insertion. -/
theorem mem_insertRecipient (y x : Int) (l : List Int) :
    y ∈ Gateway.insertRecipient x l ↔ y = x ∨ y ∈ l := by
  unfold Gateway.insertRecipient
  split
  · next h => constructor
              · exact fun hy => Or.inr hy
              · rintro (rfl | hy)
                · exact h
                · exact hy
  · simp [List.mem_cons]

/-- Zero is never inserted into the recipients map by the processing loop. -/
theorem processMessages_zero_not_recipient (clear : Int → Nat → Int)
    (addressSpaceSize roundID : Nat) (msgs : List Gateway.PbMsg) :
    (0 : Int) ∉ (Gateway.processMessages clear addressSpaceSize roundID msgs).recipients := by
  induction msgs with
  | nil => simp [Gateway.processMessages]
  | cons m rest ih =>
    by_cases h : m.identityFP = Gateway.dummyIdFp
    · simpa [Gateway.processMessages, h] using ih
    · cases hv : m.ephRID with
      | none => simpa [Gateway.processMessages, h, hv] using ih
      | some v =>
        simp only [Gateway.processMessages, h, hv, ite_false, if_neg, not_false_iff]
        split
        · next hz =>
          rw [mem_insertRecipient]
          push_neg
          exact ⟨fun he => hz he.symm, ih⟩
        · exact ih

/-- The `ClientRound` message list built by the loop is exactly the
per-slot contribution of every non-dummy, marshallable slot, in FIFO
order, including slots whose cleared recipient id is zero. -/
theorem processMessages_messages_eq (clear : Int → Nat → Int)
    (addressSpaceSize roundID : Nat) (msgs : List Gateway.PbMsg) :
    (Gateway.processMessages clear addressSpaceSize roundID msgs).messages
      = msgs.filterMap (Gateway.slotToMixed clear addressSpaceSize roundID) := by
  induction msgs with
  | nil => rfl
  | cons m rest ih =>
    by_cases h : m.identityFP = Gateway.dummyIdFp
    · simp [Gateway.processMessages, Gateway.slotToMixed, h, ih, List.filterMap_cons]
    · cases hv : m.ephRID with
      | none =>
        simp [Gateway.processMessages, Gateway.slotToMixed, h, hv, ih, List.filterMap_cons]
      | some v =>
        simp [Gateway.processMessages, Gateway.slotToMixed, h, hv, ih, List.filterMap_cons]

/-- C3 counterexample: a non-dummy slot (identity fingerprint of ones)
whose marshalled ephemeral id 8 clears to zero under address-space size 3
is not added to the recipients set, but a mixed message carrying the zero
recipient id IS placed in the `ClientRound` handed to the store, contrary
to the claim that the zero result is never stored. -/
theorem c3_zero_recipient_stored_counterexample :
    (Gateway.processMessages Gateway.clearLowBits 3 10
        [⟨List.replicate 25 1, some 8, [1], [2]⟩]).messages
      = [⟨10, 0, [1], [2]⟩] ∧
    (Gateway.processMessages Gateway.clearLowBits 3 10
        [⟨List.replicate 25 1, some 8, [1], [2]⟩]).recipients = [] := by
  constructor <;> rfl

/-- C3 amended: for every clearing function, address-space size, round
and batch, an ephemeral id that clears to zero is never added to the
recipients set handed to bloom gossip, but the mixed message of every
non-dummy marshallable slot — including one whose cleared id is zero — is
still appended to the `ClientRound` written to the store. -/
theorem c3_zero_never_gossiped_but_stored (clear : Int → Nat → Int)
    (addressSpaceSize roundID : Nat) (msgs : List Gateway.PbMsg) :
    (0 : Int) ∉ (Gateway.processMessages clear addressSpaceSize roundID msgs).recipients ∧
      (Gateway.processMessages clear addressSpaceSize roundID msgs).messages
        = msgs.filterMap (Gateway.slotToMixed clear addressSpaceSize roundID) :=
  ⟨processMessages_zero_not_recipient clear addressSpaceSize roundID msgs,
    processMessages_messages_eq clear addressSpaceSize roundID msgs⟩

/-- Writing four bytes at offset 1 into a list with at least five cells. -/
theorem writeBytes_offset_one (a b c d e w x y z : Nat) (l : Gateway.Bytes) :
    Gateway.writeBytes (a :: b :: c :: d :: e :: l) 1 [w, x, y, z]
      = a :: w :: x :: y :: z :: l := rfl

/-- Peeling five zero cells off a replicate list. -/
theorem replicate_five_add (k : Nat) :
    List.replicate (5 + k) (0 : Nat) = 0 :: 0 :: 0 :: 0 :: 0 :: List.replicate k 0 := by
  rw [List.replicate_add]
  rfl

/-- Closed form of the junk payload for payload lengths of at least five
bytes: one zero byte, the little-endian encoding of `msgNum+1`, zero
padding. -/
theorem junkPayload_five_add (k msgNum : Nat) :
    Gateway.junkPayload (5 + k) msgNum
      = 0 :: Gateway.le32 ((msgNum + 1) % 4294967296) ++ List.replicate k 0 := by
  unfold Gateway.junkPayload Gateway.le32
  rw [replicate_five_add, writeBytes_offset_one]
  rfl

/-- Bytes 1 to 4 of the junk payload are the little-endian encoding of
`msgNum + 1`. -/
theorem junkPayload_encodes (primeByteLen msgNum : Nat) (h : 5 ≤ primeByteLen) :
    ((Gateway.junkPayload primeByteLen msgNum).drop 1).take 4
      = Gateway.le32 ((msgNum + 1) % 4294967296) := by
  obtain ⟨k, rfl⟩ : ∃ k, primeByteLen = 5 + k := ⟨primeByteLen - 5, by omega⟩
  rw [junkPayload_five_add]
  unfold Gateway.le32
  rfl

/-- C4 counterexample: two calls of `GenJunkMsg` with the same
`(msgNum, roundID)` (and the same group, node count and dummy user) made
at different times produce different slots, because the source feeds
`time.Now().UnixNano()` into the ephemeral-id derivation: under a
collaborator behaviour in which that derivation varies with its timestamp,
the slots at times 0 and 1 differ. -/
theorem c4_time_dependence_counterexample :
    Gateway.genJunkMsg Gateway.timeSensitiveJunkEnv 5 1 0 7 0
      ≠ Gateway.genJunkMsg Gateway.timeSensitiveJunkEnv 5 1 0 7 1 := by
  decide

/-- C4 amended: `GenJunkMsg` is deterministic in `(msgNum, roundID)` and
the ephemeral id derived from the dummy user at the call time — two calls
whose timestamps yield the same derived ephemeral id produce identical
slots; moreover the formatted junk message carries the all-zero dummy
identity fingerprint of length `IdentityFPLen`, its payload encodes
`msgNum+1` in little-endian starting at byte offset 1, and the slot salt
is `0x01` followed by zeros. -/
theorem c4_junk_deterministic_given_time (env : Gateway.JunkEnv)
    (primeByteLen numNodes msgNum roundID : Nat) (t1 t2 : Int)
    (hL : 5 ≤ primeByteLen)
    (heph : env.ephGetId Gateway.dummyUserBytes 64 t1
      = env.ephGetId Gateway.dummyUserBytes 64 t2) :
    Gateway.genJunkMsg env primeByteLen numNodes msgNum roundID t1
        = Gateway.genJunkMsg env primeByteLen numNodes msgNum roundID t2 ∧
      (Gateway.junkFormatMessage env primeByteLen msgNum t1).identityFP
        = Gateway.dummyIdFp ∧
      Gateway.dummyIdFp.length = Gateway.identityFPLen ∧
      (((Gateway.junkFormatMessage env primeByteLen msgNum t1).payloadA).drop 1).take 4
        = Gateway.le32 ((msgNum + 1) % 4294967296) ∧
      (Gateway.genJunkMsg env primeByteLen numNodes msgNum roundID t1).salt
        = 1 :: List.replicate 31 0 := by
  refine ⟨?_, rfl, by simp [Gateway.dummyIdFp], ?_, rfl⟩
  · unfold Gateway.genJunkMsg Gateway.junkFormatMessage
    rw [heph]
  · exact junkPayload_encodes primeByteLen msgNum hL

/-- Witness for C4 (amended) under time-independent collaborators at
`msgNum = 0`, `roundID = 7`, times 0 and 5. -/
theorem c4_junk_deterministic_given_time_witness :
    Gateway.genJunkMsg Gateway.sampleJunkEnv 5 1 0 7 0
        = Gateway.genJunkMsg Gateway.sampleJunkEnv 5 1 0 7 5 ∧
      (Gateway.junkFormatMessage Gateway.sampleJunkEnv 5 0 0).identityFP
        = Gateway.dummyIdFp ∧
      Gateway.dummyIdFp.length = Gateway.identityFPLen ∧
      (((Gateway.junkFormatMessage Gateway.sampleJunkEnv 5 0 0).payloadA).drop 1).take 4
        = Gateway.le32 ((0 + 1) % 4294967296) ∧
      (Gateway.genJunkMsg Gateway.sampleJunkEnv 5 1 0 7 0).salt
        = 1 :: List.replicate 31 0 :=
  c4_junk_deterministic_given_time Gateway.sampleJunkEnv 5 1 0 7 0 5 (by decide) rfl

/-- C6: when `UploadUnmixedBatch` with a positive batch size `n` pops a
non-nil batch of `k ≤ n` slots, the shipped batch is the original slots
in FIFO order followed by junk slots generated at
`msgNum = k, ..., n-1`, for a total of exactly `n` slots; when `PopRound`
returns nil, nothing is uploaded. -/
theorem c6_uploadUnmixedBatch_pads (env : Gateway.JunkEnv)
    (primeByteLen numNodes rid : Nat) (now : Int) (n : Nat)
    (slots : List Gateway.Slot) (hn : 0 < n) (hk : slots.length ≤ n) :
    Gateway.uploadUnmixedBatch env primeByteLen numNodes n rid now (some slots)
        = some (slots ++ (List.range' slots.length (n - slots.length)).map
            (fun i => Gateway.genJunkMsg env primeByteLen numNodes i rid now)) ∧
      (slots ++ (List.range' slots.length (n - slots.length)).map
          (fun i => Gateway.genJunkMsg env primeByteLen numNodes i rid now)).length = n ∧
      Gateway.uploadUnmixedBatch env primeByteLen numNodes n rid now none = none := by
  have hn' : n ≠ 0 := Nat.pos_iff_ne_zero.mp hn
  refine ⟨by simp [Gateway.uploadUnmixedBatch, hn'], ?_,
    by simp [Gateway.uploadUnmixedBatch, hn']⟩
  simp only [List.length_append, List.length_map, List.length_range']
  omega

/-- Witness for C6: a buffer of 4 slots for round 7 and a batch size of
10 ships those 4 slots followed by 6 junk slots at `msgNum = 4..9`. -/
theorem c6_uploadUnmixedBatch_pads_witness :
    Gateway.uploadUnmixedBatch Gateway.sampleJunkEnv 5 1 10 7 0
        (some (List.replicate 4 Gateway.sampleSlot))
      = some (List.replicate 4 Gateway.sampleSlot
          ++ (List.range' (List.replicate 4 Gateway.sampleSlot).length
              (10 - (List.replicate 4 Gateway.sampleSlot).length)).map
            (fun i => Gateway.genJunkMsg Gateway.sampleJunkEnv 5 1 i 7 0)) ∧
      (List.replicate 4 Gateway.sampleSlot
          ++ (List.range' (List.replicate 4 Gateway.sampleSlot).length
              (10 - (List.replicate 4 Gateway.sampleSlot).length)).map
            (fun i => Gateway.genJunkMsg Gateway.sampleJunkEnv 5 1 i 7 0)).length = 10 ∧
      Gateway.uploadUnmixedBatch Gateway.sampleJunkEnv 5 1 10 7 0 none = none :=
  c6_uploadUnmixedBatch_pads Gateway.sampleJunkEnv 5 1 7 0 10
    (List.replicate 4 Gateway.sampleSlot) (by decide) (by decide)

/-- C7: `Storage.GetMixedMessages` reports `hasRound` exactly when
`countMixedMessagesByRound` returns a positive count, and whenever the
count is zero it returns an empty message list and its result does not
depend on the per-recipient message index at all. -/
theorem c7_getMixedMessages_hasRound
    (countMixedMessagesByRound : Nat → Nat × Option String)
    (getByRecipient altGetByRecipient :
      Gateway.Bytes → Nat → List Gateway.MixedMessage × Option String)
    (recipientId : Gateway.Bytes) (roundId : Nat) :
    (Gateway.getMixedMessagesStorage countMixedMessagesByRound getByRecipient
          recipientId roundId).isValidGateway
        = decide ((countMixedMessagesByRound roundId).1 > 0) ∧
      ((countMixedMessagesByRound roundId).1 = 0 →
        (Gateway.getMixedMessagesStorage countMixedMessagesByRound getByRecipient
            recipientId roundId).msgs = [] ∧
          Gateway.getMixedMessagesStorage countMixedMessagesByRound getByRecipient
              recipientId roundId
            = Gateway.getMixedMessagesStorage countMixedMessagesByRound
                altGetByRecipient recipientId roundId) := by
  constructor
  · simp only [Gateway.getMixedMessagesStorage]
    split <;> rfl
  · intro h0
    have hd : decide ((countMixedMessagesByRound roundId).1 > 0) = false := by
      simp [h0]
    simp only [Gateway.getMixedMessagesStorage, hd]
    simp

/-- Witness for C7 at a count of zero: `hasRound` is false, the list is
empty, and swapping the per-recipient index for one that would return an
error changes nothing. -/
theorem c7_getMixedMessages_hasRound_witness :
    (Gateway.getMixedMessagesStorage (fun _ => (0, none))
          (fun _ _ => ([⟨1, 2, [3], [4]⟩], none)) [5] 3).isValidGateway = false ∧
      (Gateway.getMixedMessagesStorage (fun _ => (0, none))
          (fun _ _ => ([⟨1, 2, [3], [4]⟩], none)) [5] 3).msgs = [] ∧
      Gateway.getMixedMessagesStorage (fun _ => (0, none))
          (fun _ _ => ([⟨1, 2, [3], [4]⟩], none)) [5] 3
        = Gateway.getMixedMessagesStorage (fun _ => (0, none))
            (fun _ _ => ([], some "backend failure")) [5] 3 := by
  have h := c7_getMixedMessages_hasRound (fun _ => (0, none))
    (fun _ _ => ([⟨1, 2, [3], [4]⟩], none))
    (fun _ _ => ([], some "backend failure")) [5] 3
  exact ⟨h.1, (h.2 rfl).1, (h.2 rfl).2⟩

/-- C9: a message that has passed the client MAC check (and whose sender
id unmarshals) is rejected for rate limiting exactly when the IP-address
bucket is not whitelisted and the `Add(1)` on the sender-id bucket fails;
when either succeeds, the request proceeds to the `UnmixedBuffer` append,
whose outcome alone decides the response.  The same holds for
`PutManyMessages` when every slot passes `processPutMessage`. -/
theorem c9_rateLimit_admission (senderIdParse : Option Gateway.Bytes)
    (getClient : Gateway.Bytes → Option Gateway.Client)
    (cmixHash : Gateway.Bytes → Gateway.Bytes) (salt slotDigest mac : Gateway.Bytes)
    (hmac : Gateway.processPutMessage senderIdParse getClient cmixHash
      salt slotDigest mac = none)
    (wl add : Bool) (bufferAddErr : Option String) (roundID : Nat)
    (procResults : List (Option String))
    (hmany : procResults.findSome? id = none) :
    (Gateway.putMessage (Gateway.processPutMessage senderIdParse getClient cmixHash
            salt slotDigest mac) true wl add bufferAddErr roundID = .rateLimited ↔
        wl = false ∧ add = false) ∧
      ((wl = true ∨ add = true) →
        Gateway.putMessage (Gateway.processPutMessage senderIdParse getClient cmixHash
              salt slotDigest mac) true wl add bufferAddErr roundID
          = match bufferAddErr with
            | some e => .bufferRejected e
            | none => .accepted roundID) ∧
      (Gateway.putManyMessages true procResults wl add bufferAddErr roundID
          = .rateLimited ↔ wl = false ∧ add = false) ∧
      ((wl = true ∨ add = true) →
        Gateway.putManyMessages true procResults wl add bufferAddErr roundID
          = match bufferAddErr with
            | some e => .bufferRejected e
            | none => .accepted roundID) := by
  rw [hmac]
  unfold Gateway.putMessage Gateway.putManyMessages
  rw [hmany]
  cases wl <;> cases add <;> cases bufferAddErr <;> simp

/-- Witness for C9: a registered client with a matching MAC, a
non-whitelisted IP but a successful id-bucket `Add(1)`, and a successful
buffer append: both endpoints accept. -/
theorem c9_rateLimit_admission_witness :
    (Gateway.putMessage (Gateway.processPutMessage (some [1])
            (fun _ => some ⟨[1], [2]⟩) (fun b => b) [3] [4] [2, 3, 4])
          true false true none 7 = .rateLimited ↔ false = false ∧ true = false) ∧
      Gateway.putMessage (Gateway.processPutMessage (some [1])
            (fun _ => some ⟨[1], [2]⟩) (fun b => b) [3] [4] [2, 3, 4])
          true false true none 7 = .accepted 7 ∧
      (Gateway.putManyMessages true [none, none] false true none 7 = .rateLimited ↔
        false = false ∧ true = false) ∧
      Gateway.putManyMessages true [none, none] false true none 7 = .accepted 7 := by
  have h := c9_rateLimit_admission (some [1]) (fun _ => some ⟨[1], [2]⟩) (fun b => b)
    [3] [4] [2, 3, 4] rfl false true none 7 [none, none] rfl
  exact ⟨h.1, h.2.1 (Or.inr rfl), h.2.2.1, h.2.2.2 (Or.inr rfl)⟩
